import Mathlib

/-!
# Verification of the Njalla DNS provider adapter

Shallow embedding of `src/lexicon/_private/providers/njalla.py`
(`Provider`: `authenticate`, `create_record`, `list_records`,
`update_record`, `delete_record`, `_api_call`, `_get_record_identifier`)
and proofs about its record-management protocol logic.

Python dictionaries whose key sets vary (the processed records, which carry
`priority`/`weight`/`port` keys only for SRV records) are embedded as
structures with `Option` fields where `none` stands for an absent key, and
dictionary subscription of a possibly-absent key returns in the `Except`
monad, raising `PyError.keyError` exactly where Python would raise
`KeyError`.  Remote transport is embedded as an explicit argument (the
decoded JSON response or a transport error), and each operation additionally
returns the transcript of remote calls it issued, so that claims of the form
"no remote call is issued before the failure" are statable.
-/

/-- Equality on `Except` outcomes is decidable, so concrete runs of the
embedded operations can be settled by `decide`. -/
instance {ε α : Type} [DecidableEq ε] [DecidableEq α] : DecidableEq (Except ε α) := fun a b =>
  match a, b with
  | .error e1, .error e2 =>
    if h : e1 = e2 then isTrue (by rw [h]) else isFalse (by intro hc; cases hc; exact h rfl)
  | .ok v1, .ok v2 =>
    if h : v1 = v2 then isTrue (by rw [h]) else isFalse (by intro hc; cases hc; exact h rfl)
  | .error _, .ok _ => isFalse (by intro hc; cases hc)
  | .ok _, .error _ => isFalse (by intro hc; cases hc)

namespace Njalla

/-- The Python exceptions the provider can raise, by constructor. -/
inductive PyError where
  /-- A plain `Exception(msg)`. -/
  | exn (msg : String)
  /-- A `KeyError` from subscripting a dictionary on an absent key. -/
  | keyError (key : String)
  /-- An `AttributeError` (e.g. calling `.lower()` on `None`). -/
  | attributeError (msg : String)
  /-- `lexicon.exceptions.AuthenticationError`. -/
  | authError (msg : String)
deriving DecidableEq, Repr

/-- `str(e)` on an embedded exception: its message. -/
def pyStr : PyError → String
  | .exn m => m
  | .keyError k => k
  | .attributeError m => m
  | .authError m => m

/-- The provider's configuration surface: the authenticated domain
(`self.domain`), the `auth_token` provider option and the `ttl` lexicon
option (`none` embeds an unset option / Python `None`). -/
structure Config where
  domain : String
  auth_token : Option String
  ttl_option : Option Int
deriving DecidableEq, Repr

/-- A raw record of the remote `list-records` response.  `prio`, `weight`
and `port` are `none` when the remote JSON object lacks those keys. -/
structure RawRecord where
  id : Int
  rtype : String
  name : String
  ttl : Int
  content : String
  prio : Option Int
  weight : Option Int
  port : Option Int
deriving DecidableEq, Repr

/-- A processed record, as built by the loop in `Provider.list_records`:
`id`, `type`, fully-qualified `name`, `ttl`, `content`, and — only when the
record's type is SRV — `priority`, `weight`, `port` keys (`none` embeds an
absent key). -/
structure ProcessedRecord where
  id : Int
  rtype : String
  name : String
  ttl : Int
  content : String
  priority : Option Int
  weight : Option Int
  port : Option Int
deriving DecidableEq, Repr

/-- The `params` dictionary `Provider.create_record` sends with the remote
`add-record` call. -/
structure AddParams where
  domain : String
  rtype : String
  name : String
  content : String
  ttl : Int
  prio : Option Int
  weight : Option Int
  port : Option Int
deriving DecidableEq, Repr

/-- One remote call issued through `Provider._request`, by remote method. -/
inductive ApiCall where
  | getDomain
  | listRecords
  | addRecord (params : AddParams)
  | editRecord (id : Int) (content : Option String)
  | removeRecord (id : Int)
deriving DecidableEq, Repr

/-- The remote mutation methods (`add-record`, `edit-record`,
`remove-record`), as opposed to the read methods. -/
def ApiCall.isMutation : ApiCall → Bool
  | .addRecord _ => true
  | .editRecord _ _ => true
  | .removeRecord _ => true
  | _ => false

/-- The decoded JSON body of a remote response: either the `error` envelope
(`fault`) carrying a numeric code and a message, or the `result` payload. -/
inductive RpcResponse (α : Type) where
  | fault (code : Int) (message : String)
  | result (payload : α)
deriving DecidableEq, Repr

/-- `Provider._api_call(method, params)`: requires the `auth_token`
provider option, then issues the transport call and inspects the decoded
response — the `error` envelope becomes `Exception("<code>: <message>")`,
otherwise the `result` payload is returned.  `transport` is the outcome of
`Provider._request` (a transport error or the decoded JSON response); the
returned Boolean is whether the transport call was actually issued. -/
def api_call (auth_token : Option String) (transport : Except PyError (RpcResponse α)) :
    Except PyError α × Bool :=
  match auth_token with
  | none => (.error (.exn "Must provide API token"), false)
  | some _ =>
    match transport with
    | .error e => (.error e, true)
    | .ok (.fault code message) =>
        (.error (.exn (toString code ++ ": " ++ message)), true)
    | .ok (.result payload) => (.ok payload, true)

/-- Python `str.lower`, over the string's character list (so that concrete
runs reduce inside the kernel). -/
def pyLower (s : String) : String := String.mk (s.data.map Char.toLower)

/-- Python `str.endswith`, over the strings' character lists. -/
def py_endswith (s sfx : String) : Bool := sfx.data.isSuffixOf s.data

/-- Modelled from the spec: the host framework's `_full_name` helper (the
base provider abstraction is an external collaborator, not part of this
repository's source) rewrites a record name to a fully-qualified form —
"relative names are suffixed with the authenticated domain". -/
def full_name (domain rname : String) : String :=
  if py_endswith rname domain then rname else rname ++ "." ++ domain

/-- The body of the processing loop in `Provider.list_records`: map one raw
remote record to the canonical shape; when its type is SRV (case-insensitive),
copy `prio`/`weight`/`port` into `priority`/`weight`/`port` (subscripting a
missing key raises `KeyError`, in the order `prio`, `weight`, `port`). -/
def processRecord (domain : String) (r : RawRecord) : Except PyError ProcessedRecord :=
  let base : ProcessedRecord :=
    { id := r.id, rtype := r.rtype, name := full_name domain r.name,
      ttl := r.ttl, content := r.content,
      priority := none, weight := none, port := none }
  if pyLower r.rtype = "srv" then
    match r.prio, r.weight, r.port with
    | some p, some w, some pt =>
        .ok { base with priority := some p, weight := some w, port := some pt }
    | none, _, _ => .error (.keyError "prio")
    | some _, none, _ => .error (.keyError "weight")
    | some _, some _, none => .error (.keyError "port")
  else
    .ok base

/-- One numeric conjunct of the filter comprehension in
`Provider.list_records`, e.g. `(priority is None or record["priority"] == priority)`
chained by short-circuit `and` with the rest of the conjunction (`rest`):
a null filter skips the conjunct; a non-null filter subscripts the record
(raising `KeyError key` when the key is absent) and stops with `False` on a
mismatch. -/
def checkNum (key : String) (filt field : Option Int) (rest : Except PyError Bool) :
    Except PyError Bool :=
  match filt with
  | none => rest
  | some p =>
    match field with
    | none => .error (.keyError key)
    | some v => if v == p then rest else .ok false

/-- The full filter condition of the comprehension in
`Provider.list_records`, with Python's left-to-right short-circuit
evaluation: type, name (fully qualified before comparison), content, then
`priority`, `weight`, `port` via `checkNum`. -/
def matchesFilter (domain : String) (rtype rname content : Option String)
    (priority weight port : Option Int) (r : ProcessedRecord) : Except PyError Bool :=
  if !(rtype.all (fun t => r.rtype == t)) then .ok false
  else if !(rname.all (fun n => r.name == full_name domain n)) then .ok false
  else if !(content.all (fun c => r.content == c)) then .ok false
  else
    checkNum "priority" priority r.priority
      (checkNum "weight" weight r.weight
        (checkNum "port" port r.port (.ok true)))

/-- The processing `for` loop of `Provider.list_records`: map `f` over the
list in order, stopping at the first raised error. -/
def mapE (f : α → Except PyError β) : List α → Except PyError (List β)
  | [] => .ok []
  | x :: xs =>
    match f x with
    | .error e => .error e
    | .ok y =>
      match mapE f xs with
      | .error e => .error e
      | .ok ys => .ok (y :: ys)

/-- The filtering comprehension of `Provider.list_records`: keep, in order,
the elements whose condition evaluates to `true`, stopping at the first
raised error. -/
def filterE (p : α → Except PyError Bool) : List α → Except PyError (List α)
  | [] => .ok []
  | x :: xs =>
    match p x with
    | .error e => .error e
    | .ok b =>
      match filterE p xs with
      | .error e => .error e
      | .ok ys => .ok (if b then x :: ys else ys)

/-- `Provider.list_records`: one remote `list-records` call fetching all of
the zone's records (`zone` is the `records` array of its `result` payload,
the transport assumed available), then client-side mapping and filtering. -/
def list_records (cfg : Config) (zone : List RawRecord)
    (rtype rname content : Option String) (priority weight port : Option Int) :
    Except PyError (List ProcessedRecord) × List ApiCall :=
  match (api_call cfg.auth_token (Except.ok (RpcResponse.result zone))).1 with
  | .error e => (.error e, [])
  | .ok records =>
    (match mapE (processRecord cfg.domain) records with
     | .error e => .error e
     | .ok processed =>
         filterE (matchesFilter cfg.domain rtype rname content priority weight port)
           processed,
     [ApiCall.listRecords])

/-- `Provider._get_record_identifier`: run `list_records` with the given
criteria; exactly one match returns its `id`, anything else raises. -/
def get_record_identifier (cfg : Config) (zone : List RawRecord)
    (rtype rname content : Option String) : Except PyError Int × List ApiCall :=
  match list_records cfg zone rtype rname content none none none with
  | (.error e, calls) => (.error e, calls)
  | (.ok records, calls) =>
    match records with
    | [r] => (.ok r.id, calls)
    | _ => (.error (.exn "Unambiguous record could not be found."), calls)

/-- Python truthiness of the optional identifier argument
(`if not identifier:`): `None` and `0` are falsy. -/
def falsyId : Option Int → Bool
  | none => true
  | some n => n == 0

/-- The tail of `Provider.delete_record` once the identifier is resolved
(`resolved` carries the resolution outcome and its transcript): issue the
remote `remove-record` call and return `True`. -/
def delete_with_id (cfg : Config) (resolved : Except PyError Int × List ApiCall) :
    Except PyError Bool × List ApiCall :=
  match resolved with
  | (.error e, calls) => (.error e, calls)
  | (.ok rid, calls) =>
    match (api_call cfg.auth_token (Except.ok (RpcResponse.result true))).1 with
    | .error e => (.error e, calls)
    | .ok _ => (.ok true, calls ++ [ApiCall.removeRecord rid])

/-- `Provider.delete_record`: a falsy identifier is resolved through
`_get_record_identifier` with the (type, name, content) criteria; then one
remote `remove-record` call, returning `True`. -/
def delete_record (cfg : Config) (zone : List RawRecord) (identifier : Option Int)
    (rtype rname content : Option String) : Except PyError Bool × List ApiCall :=
  if falsyId identifier then
    delete_with_id cfg (get_record_identifier cfg zone rtype rname content)
  else
    delete_with_id cfg (.ok (identifier.getD 0), [])

/-- `Provider.update_record`: a falsy identifier is resolved through
`_get_record_identifier` with the (type, name) criteria (content is not
part of update's resolution filter); then `rtype.lower()` is consulted —
an `AttributeError` when `rtype` is `None`, a "not implemented" `Exception`
when it is SRV — and finally one remote `edit-record` call with the
identifier and new content. -/
def update_record (cfg : Config) (zone : List RawRecord) (identifier : Option Int)
    (rtype rname content : Option String) : Except PyError Unit × List ApiCall :=
  let resolved : Except PyError Int × List ApiCall :=
    if falsyId identifier then get_record_identifier cfg zone rtype rname none
    else (.ok (identifier.getD 0), [])
  match resolved with
  | (.error e, calls) => (.error e, calls)
  | (.ok rid, calls) =>
    match rtype with
    | none => (.error (.attributeError "NoneType object has no attribute lower"), calls)
    | some t =>
      if pyLower t == "srv" then
        (.error (.exn "Modifying SRV via API needs to be implemented."), calls)
      else
        match (api_call cfg.auth_token (Except.ok (RpcResponse.result ()))).1 with
        | .error e => (.error e, calls)
        | .ok _ => (.ok (), calls ++ [ApiCall.editRecord rid content])

/-- The `if self._get_lexicon_option("ttl"):` override at the end of
`Provider.create_record`'s parameter building: a truthy (set and nonzero)
`ttl` option replaces the default of 60. -/
def apply_ttl_option (cfg : Config) (ps : AddParams) : AddParams :=
  match cfg.ttl_option with
  | some t => if t == 0 then ps else { ps with ttl := t }
  | none => ps

/-- `Provider.create_record`: build the `add-record` params with a default
`ttl` of 60; for SRV (case-insensitive) require priority, weight and port
together and attach them as `prio`/`weight`/`port`; apply the `ttl` lexicon
option; then one remote `add-record` call.  The success value is the params
the remote call carried. -/
def create_record (cfg : Config) (rtype rname content : String)
    (priority weight port : Option Int) : Except PyError AddParams × List ApiCall :=
  let base : AddParams :=
    { domain := cfg.domain, rtype := rtype, name := rname, content := content,
      ttl := 60, prio := none, weight := none, port := none }
  let withSrv : Except PyError AddParams :=
    if pyLower rtype == "srv" then
      match priority, weight, port with
      | some p, some w, some pt =>
          .ok { base with prio := some p, weight := some w, port := some pt }
      | _, _, _ =>
          .error (.exn "Priority, weight, and port are required to create SRV records.")
    else .ok base
  match withSrv with
  | .error e => (.error e, [])
  | .ok ps =>
    let ps := apply_ttl_option cfg ps
    match (api_call cfg.auth_token (Except.ok (RpcResponse.result ps))).1 with
    | .error e => (.error e, [])
    | .ok sent => (.ok sent, [ApiCall.addRecord ps])

/-- The `result` payload of the remote `get-domain` method: the registered
name of the domain looked up. -/
structure GetDomainResult where
  name : String
deriving DecidableEq, Repr

/-- `Provider.authenticate`: one `get-domain` call; any exception from it is
re-raised as `AuthenticationError(str(e))`; a returned name different from
the configured domain raises `AuthenticationError("Domain not found")`;
otherwise `self.domain_id` is set to the domain (the success value). -/
def authenticate (cfg : Config) (transport : Except PyError (RpcResponse GetDomainResult)) :
    Except PyError String :=
  match (api_call cfg.auth_token transport).1 with
  | .error e => .error (.authError (pyStr e))
  | .ok result =>
    if result.name != cfg.domain then .error (.authError "Domain not found")
    else .ok cfg.domain

/-- Modelled from the spec: the remote service's `add-record` side effect
(the remote service is an external collaborator) — "the remote service
persists a new record with a server-assigned identifier", appended to the
zone's record set with the fields the request carried. -/
def remote_add (zone : List RawRecord) (newId : Int) (ps : AddParams) : List RawRecord :=
  zone ++ [{ id := newId, rtype := ps.rtype, name := ps.name, ttl := ps.ttl,
             content := ps.content, prio := ps.prio, weight := ps.weight,
             port := ps.port }]

/-- The filter of `Provider.list_records` as a total Boolean predicate: a
record matches when every non-null filter field equals the corresponding
record field (name compared fully qualified; a record without a
`priority`/`weight`/`port` key would not match a non-null numeric filter).
On records where no key lookup fails, `matchesFilter` computes exactly
this predicate. -/
def matchesTotal (domain : String) (rtype rname content : Option String)
    (priority weight port : Option Int) (r : ProcessedRecord) : Bool :=
  rtype.all (fun t => r.rtype == t) &&
  rname.all (fun n => r.name == full_name domain n) &&
  content.all (fun c => r.content == c) &&
  priority.all (fun p => r.priority == some p) &&
  weight.all (fun w => r.weight == some w) &&
  port.all (fun pt => r.port == some pt)

/-- The effective time-to-live `create_record` sends: 60 unless a truthy
(nonzero) `ttl` lexicon option overrides it. -/
def effective_ttl (cfg : Config) : Int :=
  match cfg.ttl_option with
  | none => 60
  | some t => if t == 0 then 60 else t

/-! ## Concrete fixtures for witnesses and counterexamples -/

/-- A configured provider: domain `example.com`, a token, no `ttl` option. -/
def cfgW : Config := { domain := "example.com", auth_token := some "tok", ttl_option := none }

/-- A provider configured with a `ttl` lexicon option of `0`. -/
def cfg0 : Config := { domain := "example.com", auth_token := some "tok", ttl_option := some 0 }

/-- A raw `A` record of the remote zone (no `prio`/`weight`/`port` keys). -/
def rawA : RawRecord :=
  { id := 1, rtype := "A", name := "www", ttl := 300, content := "1.2.3.4",
    prio := none, weight := none, port := none }

/-- A second raw `A` record, distinct only in `id` and `content`. -/
def rawA2 : RawRecord :=
  { id := 2, rtype := "A", name := "www", ttl := 300, content := "5.6.7.8",
    prio := none, weight := none, port := none }

/-- A raw `SRV` record of the remote zone. -/
def rawSrv : RawRecord :=
  { id := 7, rtype := "SRV", name := "x", ttl := 300, content := "c",
    prio := some 1, weight := some 2, port := some 3 }

/-- `rawA` as `list_records` maps it. -/
def procA : ProcessedRecord :=
  { id := 1, rtype := "A", name := "www.example.com", ttl := 300, content := "1.2.3.4",
    priority := none, weight := none, port := none }

/-- `rawA2` as `list_records` maps it. -/
def procA2 : ProcessedRecord :=
  { id := 2, rtype := "A", name := "www.example.com", ttl := 300, content := "5.6.7.8",
    priority := none, weight := none, port := none }

/-- The `add-record` params `create_record cfg0 "TXT" "a" "v"` builds (the
`ttl` option of `0` is falsy, so the default of 60 stands). -/
def psZ : AddParams :=
  { domain := "example.com", rtype := "TXT", name := "a", content := "v",
    ttl := 60, prio := none, weight := none, port := none }

end Njalla

namespace Njalla

/-! ## Helper lemmas -/

/-- On a record where the consulted numeric keys are present (or no numeric
filter is set), the short-circuit filter computes the total predicate. -/
lemma matchesFilter_eq_total (domain : String) (rtype rname content : Option String)
    (priority weight port : Option Int) (r : ProcessedRecord)
    (h : (priority = none ∧ weight = none ∧ port = none) ∨
         (r.priority.isSome ∧ r.weight.isSome ∧ r.port.isSome)) :
    matchesFilter domain rtype rname content priority weight port r
      = .ok (matchesTotal domain rtype rname content priority weight port r) := by
  unfold matchesFilter matchesTotal
  rcases h with ⟨hp, hw, hpt⟩ | ⟨hp, hw, hpt⟩
  · subst hp; subst hw; subst hpt
    cases h1 : rtype.all (fun t => r.rtype == t) <;>
    cases h2 : rname.all (fun n => r.name == full_name domain n) <;>
    cases h3 : content.all (fun c => r.content == c) <;>
      simp [checkNum, h1, h2, h3, Option.all]
  · obtain ⟨vp, hvp⟩ := Option.isSome_iff_exists.mp hp
    obtain ⟨vw, hvw⟩ := Option.isSome_iff_exists.mp hw
    obtain ⟨vpt, hvpt⟩ := Option.isSome_iff_exists.mp hpt
    cases h1 : rtype.all (fun t => r.rtype == t) <;>
    cases h2 : rname.all (fun n => r.name == full_name domain n) <;>
    cases h3 : content.all (fun c => r.content == c) <;>
    cases priority <;> cases weight <;> cases port <;>
      simp [checkNum, h1, h2, h3, hvp, hvw, hvpt, Option.all] <;>
      split <;> simp_all <;> split <;> simp_all <;> split <;> simp_all

/-- The comprehension computes an ordinary `List.filter` when the condition
raises on none of the elements. -/
lemma filterE_eq_filter (p : α → Except PyError Bool) (q : α → Bool) (l : List α)
    (h : ∀ x ∈ l, p x = .ok (q x)) : filterE p l = .ok (l.filter q) := by
  induction l with
  | nil => rfl
  | cons x xs ih =>
    have hx := h x (List.mem_cons_self x xs)
    have ihx := ih (fun y hy => h y (List.mem_cons_of_mem x hy))
    cases hq : q x <;> simp [filterE, hx, ihx, List.filter_cons, hq]

/-- Mapping distributes over append when both halves succeed. -/
lemma mapE_append (f : α → Except PyError β) (l₁ l₂ : List α) (ys zs : List β)
    (h₁ : mapE f l₁ = .ok ys) (h₂ : mapE f l₂ = .ok zs) :
    mapE f (l₁ ++ l₂) = .ok (ys ++ zs) := by
  induction l₁ generalizing ys with
  | nil =>
    simp only [mapE] at h₁
    cases h₁
    simpa using h₂
  | cons x xs ih =>
    simp only [mapE] at h₁
    cases hfx : f x with
    | error e => rw [hfx] at h₁; cases h₁
    | ok y =>
      rw [hfx] at h₁
      cases hxs : mapE f xs with
      | error e => rw [hxs] at h₁; cases h₁
      | ok ys' =>
        rw [hxs] at h₁
        cases h₁
        simp [mapE, hfx, ih ys' hxs, h₂]

/-- A numeric conjunct either evaluates to a Boolean or raises a `KeyError`,
provided the rest of the conjunction does. -/
lemma checkNum_ok_or_keyError (key : String) (filt field : Option Int)
    (rest : Except PyError Bool)
    (h : (∃ b, rest = .ok b) ∨ (∃ k, rest = .error (.keyError k))) :
    (∃ b, checkNum key filt field rest = .ok b) ∨
    (∃ k, checkNum key filt field rest = .error (.keyError k)) := by
  cases filt with
  | none => simpa [checkNum] using h
  | some p =>
    cases field with
    | none => exact Or.inr ⟨key, by simp [checkNum]⟩
    | some v =>
      by_cases hv : (v == p) = true
      · simpa [checkNum, hv] using h
      · exact Or.inl ⟨false, by simp [checkNum, hv]⟩

/-- The filter condition either evaluates to a Boolean or raises a
`KeyError` (its only failure mode). -/
lemma matchesFilter_ok_or_keyError (domain : String) (rtype rname content : Option String)
    (priority weight port : Option Int) (r : ProcessedRecord) :
    (∃ b, matchesFilter domain rtype rname content priority weight port r = .ok b) ∨
    (∃ k, matchesFilter domain rtype rname content priority weight port r
        = .error (.keyError k)) := by
  unfold matchesFilter
  split
  · exact Or.inl ⟨false, rfl⟩
  split
  · exact Or.inl ⟨false, rfl⟩
  split
  · exact Or.inl ⟨false, rfl⟩
  exact checkNum_ok_or_keyError _ _ _ _
    (checkNum_ok_or_keyError _ _ _ _
      (checkNum_ok_or_keyError _ _ _ _ (Or.inl ⟨true, rfl⟩)))

/-- If the condition raises a `KeyError` on some element of the list and no
other failure mode occurs, the whole comprehension raises a `KeyError`. -/
lemma filterE_keyError (p : α → Except PyError Bool) (l : List α)
    (hall : ∀ x ∈ l, (∃ b, p x = .ok b) ∨ (∃ k, p x = .error (.keyError k)))
    (hbad : ∃ x ∈ l, ∃ k, p x = .error (.keyError k)) :
    ∃ k, filterE p l = .error (.keyError k) := by
  induction l with
  | nil => obtain ⟨x, hx, _⟩ := hbad; cases hx
  | cons y ys ih =>
    rcases hall y (List.mem_cons_self y ys) with ⟨b, hb⟩ | ⟨k, hk⟩
    · obtain ⟨x, hx, k, hk⟩ := hbad
      rcases List.mem_cons.mp hx with rfl | hx'
      · exact absurd hb (by rw [hk]; intro hc; cases hc)
      · obtain ⟨k', hk'⟩ := ih (fun z hz => hall z (List.mem_cons_of_mem y hz))
          ⟨x, hx', k, hk⟩
        exact ⟨k', by simp [filterE, hb, hk']⟩
    · exact ⟨k, by simp [filterE, hk]⟩

/-- On a record lacking the numeric keys that passes the string criteria, a
non-null numeric filter makes the condition raise a `KeyError`. -/
lemma matchesFilter_keyError (domain : String) (rtype rname content : Option String)
    (priority weight port : Option Int) (r : ProcessedRecord)
    (hp : r.priority = none) (hw : r.weight = none) (hpt : r.port = none)
    (h1 : rtype.all (fun t => r.rtype == t) = true)
    (h2 : rname.all (fun n => r.name == full_name domain n) = true)
    (h3 : content.all (fun c => r.content == c) = true)
    (hf : priority.isSome ∨ weight.isSome ∨ port.isSome) :
    ∃ k, matchesFilter domain rtype rname content priority weight port r
      = .error (.keyError k) := by
  unfold matchesFilter
  rw [h1, h2, h3, hp, hw, hpt]
  cases priority with
  | some p => exact ⟨"priority", by simp [checkNum]⟩
  | none =>
    cases weight with
    | some w => exact ⟨"weight", by simp [checkNum]⟩
    | none =>
      cases port with
      | some pt => exact ⟨"port", by simp [checkNum]⟩
      | none => simp at hf

/-- `list_records` with the token configured: one `list-records` call, then
the client-side mapping and filtering pass. -/
lemma list_records_eq (cfg : Config) (zone : List RawRecord)
    (rtype rname content : Option String) (priority weight port : Option Int)
    (tok : String) (all : List ProcessedRecord)
    (htok : cfg.auth_token = some tok)
    (hall : mapE (processRecord cfg.domain) zone = .ok all) :
    list_records cfg zone rtype rname content priority weight port
      = (filterE (matchesFilter cfg.domain rtype rname content priority weight port) all,
         [ApiCall.listRecords]) := by
  simp [list_records, api_call, htok, hall]

/-- The empty filter accepts every record. -/
lemma matchesTotal_none (domain : String) (r : ProcessedRecord) :
    matchesTotal domain none none none none none none r = true := rfl

/-- The comprehension with an empty filter keeps every record. -/
lemma filterE_matches_none (domain : String) (l : List ProcessedRecord) :
    filterE (matchesFilter domain none none none none none none) l = .ok l := by
  rw [filterE_eq_filter _ (matchesTotal domain none none none none none none) l
      (fun x _ => matchesFilter_eq_total domain none none none none none none x
        (Or.inl ⟨rfl, rfl, rfl⟩))]
  rw [List.filter_eq_self.mpr (fun a _ => matchesTotal_none domain a)]

/-- `list_records` issues either no remote call (missing token) or exactly
the one `list-records` call. -/
lemma list_records_calls (cfg : Config) (zone : List RawRecord)
    (rtype rname content : Option String) (priority weight port : Option Int) :
    (list_records cfg zone rtype rname content priority weight port).2 = []
    ∨ (list_records cfg zone rtype rname content priority weight port).2
        = [ApiCall.listRecords] := by
  cases htok : cfg.auth_token with
  | none => left; simp [list_records, api_call, htok]
  | some t => right; simp [list_records, api_call, htok]

/-- Identifier resolution issues either no remote call or exactly the one
`list-records` call — never a mutation. -/
lemma get_record_identifier_calls (cfg : Config) (zone : List RawRecord)
    (rtype rname content : Option String) :
    (get_record_identifier cfg zone rtype rname content).2 = []
    ∨ (get_record_identifier cfg zone rtype rname content).2 = [ApiCall.listRecords] := by
  unfold get_record_identifier
  rcases hlr : list_records cfg zone rtype rname content none none none with ⟨res, calls⟩
  have hc := list_records_calls cfg zone rtype rname content none none none
  rw [hlr] at hc
  cases res with
  | error e => simpa using hc
  | ok records => rcases records with _ | ⟨a, _ | ⟨b, t⟩⟩ <;> simpa using hc

end Njalla

namespace Njalla

/-! ## Claim theorems -/

/-- Claim C3 (amended): provided the priority/weight/port filter fields are
null, or every mapped record carries the priority/weight/port keys,
`list_records` returns exactly the subsequence, in remote response order, of
the unfiltered mapped records whose fields equal every non-null filter
field; the empty filter returns the full zone record set, and zero matches
yields `.ok []`, not an error. -/
theorem list_records_filter_subsequence (cfg : Config) (zone : List RawRecord)
    (rtype rname content : Option String) (priority weight port : Option Int)
    (tok : String) (all : List ProcessedRecord)
    (htok : cfg.auth_token = some tok)
    (hall : mapE (processRecord cfg.domain) zone = .ok all)
    (hkeys : (priority = none ∧ weight = none ∧ port = none) ∨
             ∀ r ∈ all, r.priority.isSome ∧ r.weight.isSome ∧ r.port.isSome) :
    list_records cfg zone rtype rname content priority weight port
      = (.ok (all.filter (matchesTotal cfg.domain rtype rname content priority weight port)),
         [ApiCall.listRecords])
    ∧ list_records cfg zone none none none none none none
      = (.ok all, [ApiCall.listRecords])
    ∧ (all.filter (matchesTotal cfg.domain rtype rname content priority weight port)).Sublist
        all := by
  refine ⟨?_, ?_, List.filter_sublist all⟩
  · rw [list_records_eq cfg zone rtype rname content priority weight port tok all htok hall]
    rw [filterE_eq_filter _ (matchesTotal cfg.domain rtype rname content priority weight port)
        all (fun x hx => matchesFilter_eq_total cfg.domain rtype rname content
          priority weight port x (hkeys.imp id (fun h => h x hx)))]
  · rw [list_records_eq cfg zone none none none none none none tok all htok hall]
    rw [filterE_matches_none]

/-- Witness for C3: a concrete one-record zone, filtered by type. -/
theorem list_records_filter_subsequence_witness :
    list_records cfgW [rawA] (some "A") none none none none none
      = (.ok ([procA].filter (matchesTotal cfgW.domain (some "A") none none none none none)),
         [ApiCall.listRecords]) :=
  (list_records_filter_subsequence cfgW [rawA] (some "A") none none none none none
    "tok" [procA] rfl (by decide) (Or.inl ⟨rfl, rfl, rfl⟩)).1

/-- Counterexample for C3 as frozen: over a zone holding a non-SRV record, a
non-null priority filter matching zero records raises a `KeyError` where the
claim requires the empty sequence rather than an error. -/
theorem list_records_priority_filter_error_cex :
    list_records cfgW [rawA] none none none (some 10) none none
      = (.error (.keyError "priority"), [ApiCall.listRecords]) := by decide

/-- Claim C9 (amended): when some mapped record lacks the
priority/weight/port keys (a non-SRV record) and passes every non-null
type/name/content filter field, `list_records` with a non-null priority,
weight or port filter raises a key-lookup error instead of dropping that
record as a non-match. -/
theorem list_records_key_error (cfg : Config) (zone : List RawRecord)
    (rtype rname content : Option String) (priority weight port : Option Int)
    (tok : String) (all : List ProcessedRecord) (r : ProcessedRecord)
    (htok : cfg.auth_token = some tok)
    (hall : mapE (processRecord cfg.domain) zone = .ok all)
    (hr : r ∈ all)
    (hp : r.priority = none) (hw : r.weight = none) (hpt : r.port = none)
    (h1 : rtype.all (fun t => r.rtype == t) = true)
    (h2 : rname.all (fun n => r.name == full_name cfg.domain n) = true)
    (h3 : content.all (fun c => r.content == c) = true)
    (hf : priority.isSome ∨ weight.isSome ∨ port.isSome) :
    ∃ k, (list_records cfg zone rtype rname content priority weight port).1
      = .error (.keyError k) := by
  rw [list_records_eq cfg zone rtype rname content priority weight port tok all htok hall]
  obtain ⟨k, hk⟩ := filterE_keyError
    (matchesFilter cfg.domain rtype rname content priority weight port) all
    (fun x _ => matchesFilter_ok_or_keyError cfg.domain rtype rname content
      priority weight port x)
    ⟨r, hr, matchesFilter_keyError cfg.domain rtype rname content priority weight port r
      hp hw hpt h1 h2 h3 hf⟩
  exact ⟨k, by simp [hk]⟩

/-- Witness for C9: the non-SRV record passes the (empty) string criteria,
so the priority filter raises. -/
theorem list_records_key_error_witness :
    ∃ k, (list_records cfgW [rawA] none none none (some 10) none none).1
      = .error (.keyError k) :=
  list_records_key_error cfgW [rawA] none none none (some 10) none none "tok"
    [procA] procA rfl (by decide) (by decide) rfl rfl rfl rfl rfl rfl (Or.inl rfl)

/-- Counterexample for C9 as frozen: a type filter of `"SRV"` makes the
short-circuit conjunction drop the non-SRV record before the priority
subscription, so no key-lookup error is raised despite the zone holding a
non-SRV record and the priority filter being non-null. -/
theorem list_records_short_circuit_cex :
    list_records cfgW [rawA] (some "SRV") none none (some 10) none none
      = (.ok [], [ApiCall.listRecords]) := by decide

/-- Claim C4: without an explicit identifier, a filter matching zero or more
than one record makes `delete_record` and `update_record` raise the
ambiguity/not-found error having issued only the `list-records` read (no
remote mutation call), while a filter matching exactly one record resolves
to that record's `id`. -/
theorem resolution_ambiguity_no_mutation (cfg : Config) (zone : List RawRecord)
    (rtype rname content : Option String) (rs_d rs_u : List ProcessedRecord)
    (hd : list_records cfg zone rtype rname content none none none
        = (.ok rs_d, [ApiCall.listRecords]))
    (hu : list_records cfg zone rtype rname none none none none
        = (.ok rs_u, [ApiCall.listRecords])) :
    (rs_d.length ≠ 1 →
       delete_record cfg zone none rtype rname content
         = (.error (.exn "Unambiguous record could not be found."), [ApiCall.listRecords])
       ∧ ∀ c ∈ (delete_record cfg zone none rtype rname content).2, c.isMutation = false)
    ∧ (∀ ucontent, rs_u.length ≠ 1 →
       update_record cfg zone none rtype rname ucontent
         = (.error (.exn "Unambiguous record could not be found."), [ApiCall.listRecords])
       ∧ ∀ c ∈ (update_record cfg zone none rtype rname ucontent).2, c.isMutation = false)
    ∧ (∀ r, rs_d = [r] →
       get_record_identifier cfg zone rtype rname content
         = (.ok r.id, [ApiCall.listRecords])) := by
  refine ⟨?_, ?_, ?_⟩
  · intro hlen
    have hgd : get_record_identifier cfg zone rtype rname content
        = (.error (.exn "Unambiguous record could not be found."), [ApiCall.listRecords]) := by
      unfold get_record_identifier
      rw [hd]
      rcases rs_d with _ | ⟨a, _ | ⟨b, t⟩⟩ <;> simp_all
    have heq : delete_record cfg zone none rtype rname content
        = (.error (.exn "Unambiguous record could not be found."), [ApiCall.listRecords]) := by
      simp [delete_record, falsyId, hgd, delete_with_id]
    refine ⟨heq, ?_⟩
    rw [heq]
    intro c hc
    simp at hc
    subst hc
    rfl
  · intro ucontent hlen
    have hgu : get_record_identifier cfg zone rtype rname none
        = (.error (.exn "Unambiguous record could not be found."), [ApiCall.listRecords]) := by
      unfold get_record_identifier
      rw [hu]
      rcases rs_u with _ | ⟨a, _ | ⟨b, t⟩⟩ <;> simp_all
    have heq : update_record cfg zone none rtype rname ucontent
        = (.error (.exn "Unambiguous record could not be found."), [ApiCall.listRecords]) := by
      simp [update_record, falsyId, hgu]
    refine ⟨heq, ?_⟩
    rw [heq]
    intro c hc
    simp at hc
    subst hc
    rfl
  · intro r hr
    subst hr
    unfold get_record_identifier
    rw [hd]

/-- Witness for C4: two records match the type filter, so delete raises the
ambiguity error after the one read call. -/
theorem resolution_ambiguity_witness :
    delete_record cfgW [rawA, rawA2] none (some "A") none none
      = (.error (.exn "Unambiguous record could not be found."), [ApiCall.listRecords]) :=
  ((resolution_ambiguity_no_mutation cfgW [rawA, rawA2] (some "A") none none
      [procA, procA2] [procA, procA2] (by decide) (by decide)).1 (by decide)).1

end Njalla

namespace Njalla

/-- Claim C2 (amended): `update_record` on a record of type SRV always fails
and never issues a remote mutation call; with an explicit identifier the
"not implemented" validation error is raised before any remote call, but
when the identifier must be resolved from the filter, the `list-records`
remote call precedes the failure (which may then be the ambiguity error
instead). -/
theorem update_record_srv_always_fails (cfg : Config) (zone : List RawRecord)
    (identifier : Option Int) (rname content : Option String) (t : String)
    (ht : pyLower t = "srv") :
    (∃ e, (update_record cfg zone identifier (some t) rname content).1 = .error e)
    ∧ (∀ c ∈ (update_record cfg zone identifier (some t) rname content).2,
        c.isMutation = false)
    ∧ (falsyId identifier = false →
        update_record cfg zone identifier (some t) rname content
          = (.error (.exn "Modifying SRV via API needs to be implemented."), [])) := by
  have htb : (pyLower t == "srv") = true := by simp [ht]
  cases hfi : falsyId identifier with
  | false =>
    refine ⟨⟨.exn "Modifying SRV via API needs to be implemented.", ?_⟩, ?_, fun _ => ?_⟩ <;>
      simp [update_record, hfi, htb]
  | true =>
    rcases hg : get_record_identifier cfg zone (some t) rname none with ⟨res, calls⟩
    have hcalls := get_record_identifier_calls cfg zone (some t) rname none
    rw [hg] at hcalls
    simp only at hcalls
    have hnomut : ∀ c ∈ calls, c.isMutation = false := by
      rcases hcalls with rfl | rfl
      · intro c hc; cases hc
      · intro c hc
        simp at hc
        subst hc
        rfl
    cases res with
    | error e =>
      have heq : update_record cfg zone identifier (some t) rname content
          = (.error e, calls) := by
        simp [update_record, hfi, hg]
      refine ⟨⟨e, by rw [heq]⟩, ?_, ?_⟩
      · rw [heq]; exact hnomut
      · intro hcon; cases hcon
    | ok rid =>
      have heq : update_record cfg zone identifier (some t) rname content
          = (.error (.exn "Modifying SRV via API needs to be implemented."), calls) := by
        simp [update_record, hfi, hg, htb]
      refine ⟨⟨.exn "Modifying SRV via API needs to be implemented.", by rw [heq]⟩, ?_, ?_⟩
      · rw [heq]; exact hnomut
      · intro hcon; cases hcon

/-- Witness for C2: an explicit identifier, so the failure is the SRV
validation error with an empty transcript. -/
theorem update_record_srv_fails_witness :
    update_record cfgW [] (some 5) (some "SRV") none none
      = (.error (.exn "Modifying SRV via API needs to be implemented."), []) :=
  (update_record_srv_always_fails cfgW [] (some 5) none none "SRV" (by decide)).2.2
    (by decide)

/-- Counterexample for C2 as frozen: with no explicit identifier, resolving
it issues the `list-records` remote call before the SRV "not implemented"
failure, so the validation error is not raised before any remote call. -/
theorem update_srv_resolution_call_cex :
    update_record cfgW [rawSrv] none (some "SRV") (some "x") none
      = (.error (.exn "Modifying SRV via API needs to be implemented."),
         [ApiCall.listRecords]) := by decide

/-- Claim C10: `update_record` with a non-empty explicit identifier but no
record type raises the `AttributeError` from `rtype.lower()` on `None`
before issuing the `edit-record` call (empty transcript), whatever the name
and content arguments. -/
theorem update_record_none_rtype_attribute_error (cfg : Config) (zone : List RawRecord)
    (rid : Int) (rname content : Option String) (h : rid ≠ 0) :
    update_record cfg zone (some rid) none rname content
      = (.error (.attributeError "NoneType object has no attribute lower"), []) := by
  have hf : falsyId (some rid) = false := by
    simp [falsyId, h]
  simp [update_record, hf]

/-- Witness for C10. -/
theorem update_record_none_rtype_witness :
    update_record cfgW [] (some 5) none none none
      = (.error (.attributeError "NoneType object has no attribute lower"), []) :=
  update_record_none_rtype_attribute_error cfgW [] 5 none none (by decide)

/-- Claim C5: `authenticate` succeeds (returning the configured domain as
the resolved scope) exactly when the credential is present and the remote
`get-domain` lookup returns a name equal to the configured domain; every
failure — missing credential, transport error, error envelope, or name
mismatch — surfaces as an `AuthenticationError`. -/
theorem authenticate_success_iff (cfg : Config)
    (transport : Except PyError (RpcResponse GetDomainResult)) :
    (authenticate cfg transport = .ok cfg.domain
      ↔ cfg.auth_token.isSome
        ∧ ∃ r, transport = .ok (RpcResponse.result r) ∧ r.name = cfg.domain)
    ∧ (∀ s, authenticate cfg transport = .ok s → s = cfg.domain)
    ∧ (∀ e, authenticate cfg transport = .error e → ∃ m, e = .authError m) := by
  unfold authenticate api_call
  cases htok : cfg.auth_token with
  | none => simp
  | some t =>
    cases transport with
    | error e => simp
    | ok resp =>
      cases resp with
      | fault c m => simp
      | result r =>
        by_cases hn : r.name = cfg.domain
        · simp [hn]
        · simp [hn]

/-- Claim C8: the low-level call primitive fails with the configuration
error before any transport call when the credential is absent (the issued
flag stays `false`); a decoded response carrying the error envelope fails
with `"<code>: <message>"`; otherwise the `result` payload is returned. -/
theorem api_call_contract {α : Type} (token : Option String)
    (transport : Except PyError (RpcResponse α)) :
    (token = none →
      api_call token transport = (.error (.exn "Must provide API token"), false))
    ∧ (∀ tok code message, token = some tok →
        transport = .ok (RpcResponse.fault code message) →
        api_call token transport
          = (.error (.exn (toString code ++ ": " ++ message)), true))
    ∧ (∀ tok payload, token = some tok →
        transport = .ok (RpcResponse.result payload) →
        api_call token transport = (.ok payload, true)) := by
  refine ⟨fun h => by rw [h]; rfl,
    fun tok code message h1 h2 => by rw [h1, h2]; rfl,
    fun tok payload h1 h2 => by rw [h1, h2]; rfl⟩

end Njalla

namespace Njalla

/-- The `ttl` option override leaves every other request field unchanged. -/
lemma apply_ttl_fields (cfg : Config) (ps : AddParams) :
    (apply_ttl_option cfg ps).domain = ps.domain
    ∧ (apply_ttl_option cfg ps).rtype = ps.rtype
    ∧ (apply_ttl_option cfg ps).name = ps.name
    ∧ (apply_ttl_option cfg ps).content = ps.content
    ∧ (apply_ttl_option cfg ps).prio = ps.prio
    ∧ (apply_ttl_option cfg ps).weight = ps.weight
    ∧ (apply_ttl_option cfg ps).port = ps.port := by
  unfold apply_ttl_option
  cases cfg.ttl_option with
  | none => simp
  | some t => by_cases h : (t == 0) = true <;> simp [h]

/-- Starting from the default of 60, the override computes the effective
time-to-live. -/
lemma apply_ttl_ttl (cfg : Config) (ps : AddParams) (h : ps.ttl = 60) :
    (apply_ttl_option cfg ps).ttl = effective_ttl cfg := by
  unfold apply_ttl_option effective_ttl
  cases cfg.ttl_option with
  | none => simpa using h
  | some t => by_cases h0 : (t == 0) = true <;> simp [h0, h]

/-- Claim C6: creating an SRV record with any of priority/weight/port
missing fails with the validation error naming the required triple, before
any remote call; with all three supplied, the `add-record` request carries
them as `prio`/`weight`/`port`, and the subsequently listed zone ends with
the mapped record carrying the matching `priority`/`weight`/`port` values. -/
theorem create_srv_validation_roundtrip (cfg : Config) (zone : List RawRecord)
    (newId : Int) (all : List ProcessedRecord) (rname content : String)
    (priority weight port : Option Int) (tok : String)
    (htok : cfg.auth_token = some tok)
    (hall : mapE (processRecord cfg.domain) zone = .ok all) :
    ((priority = none ∨ weight = none ∨ port = none) →
      create_record cfg "SRV" rname content priority weight port
        = (.error (.exn "Priority, weight, and port are required to create SRV records."),
           []))
    ∧ (∀ p w pt, priority = some p → weight = some w → port = some pt →
       ∃ ps, create_record cfg "SRV" rname content priority weight port
           = (.ok ps, [ApiCall.addRecord ps])
         ∧ ps.prio = some p ∧ ps.weight = some w ∧ ps.port = some pt
         ∧ ∃ nr, list_records cfg (remote_add zone newId ps) none none none none none none
             = (.ok (all ++ [nr]), [ApiCall.listRecords])
           ∧ nr.priority = some p ∧ nr.weight = some w ∧ nr.port = some pt) := by
  have hsrv : (pyLower "SRV" == "srv") = true := by decide
  constructor
  · intro hor
    rcases priority with _ | p
    · simp [create_record, hsrv]
    rcases weight with _ | w
    · simp [create_record, hsrv]
    rcases port with _ | pt
    · simp [create_record, hsrv]
    · simp at hor
  · intro p w pt hp hw hpt
    subst hp; subst hw; subst hpt
    refine ⟨apply_ttl_option cfg
      { domain := cfg.domain, rtype := "SRV", name := rname, content := content,
        ttl := 60, prio := some p, weight := some w, port := some pt }, ?_, ?_⟩
    · simp [create_record, hsrv, api_call, htok]
    obtain ⟨hdom, hrty, hnam, hcon, hpri, hwei, hpor⟩ := apply_ttl_fields cfg
      { domain := cfg.domain, rtype := "SRV", name := rname, content := content,
        ttl := 60, prio := some p, weight := some w, port := some pt }
    refine ⟨by rw [hpri], by rw [hwei], by rw [hpor], ?_⟩
    set ps := apply_ttl_option cfg
      { domain := cfg.domain, rtype := "SRV", name := rname, content := content,
        ttl := 60, prio := some p, weight := some w, port := some pt } with hps
    have hproc : processRecord cfg.domain
        { id := newId, rtype := ps.rtype, name := ps.name, ttl := ps.ttl,
          content := ps.content, prio := ps.prio, weight := ps.weight,
          port := ps.port }
        = .ok { id := newId, rtype := "SRV", name := full_name cfg.domain rname,
                ttl := ps.ttl, content := content,
                priority := some p, weight := some w, port := some pt } := by
      rw [hrty, hnam, hcon, hpri, hwei, hpor]
      have hl : pyLower "SRV" = "srv" := by decide
      simp [processRecord, hl]
    have hmap : mapE (processRecord cfg.domain) (remote_add zone newId ps)
        = .ok (all ++ [{ id := newId, rtype := "SRV",
                         name := full_name cfg.domain rname, ttl := ps.ttl,
                         content := content, priority := some p, weight := some w,
                         port := some pt }]) := by
      apply mapE_append _ _ _ _ _ hall
      simp [mapE, hproc]
    refine ⟨{ id := newId, rtype := "SRV", name := full_name cfg.domain rname,
              ttl := ps.ttl, content := content, priority := some p, weight := some w,
              port := some pt }, ?_, rfl, rfl, rfl⟩
    rw [list_records_eq cfg (remote_add zone newId ps) none none none none none none
        tok _ htok hmap]
    rw [filterE_matches_none]

/-- Witness for C6: a missing priority makes the SRV create fail before any
remote call. -/
theorem create_srv_validation_witness :
    create_record cfgW "SRV" "s" "c" none (some 2) (some 3)
      = (.error (.exn "Priority, weight, and port are required to create SRV records."),
         []) :=
  (create_srv_validation_roundtrip cfgW [] 1 [] "s" "c" none (some 2) (some 3) "tok"
    rfl (by decide)).1 (Or.inl rfl)

/-- Claim C7 (amended): a record created as `("TXT", "a", "v")` appears in
`list_records(type="TXT", name="a")` with content `"v"` and ttl 60 when no
TTL option is configured or when the configured option is `0` (Python
falsiness treats a zero TTL option as unset), otherwise the configured
override. -/
theorem create_txt_roundtrip (cfg : Config) (zone : List RawRecord) (newId : Int)
    (all : List ProcessedRecord) (tok : String)
    (htok : cfg.auth_token = some tok)
    (hall : mapE (processRecord cfg.domain) zone = .ok all) :
    ∃ ps, create_record cfg "TXT" "a" "v" none none none
        = (.ok ps, [ApiCall.addRecord ps])
      ∧ ps.ttl = effective_ttl cfg
      ∧ ∃ nr, (list_records cfg (remote_add zone newId ps) (some "TXT") (some "a")
            none none none none).1
          = .ok (all.filter (matchesTotal cfg.domain (some "TXT") (some "a")
              none none none none) ++ [nr])
        ∧ nr.rtype = "TXT" ∧ nr.content = "v" ∧ nr.ttl = effective_ttl cfg := by
  have hntxt : (pyLower "TXT" == "srv") = false := by decide
  obtain ⟨hdom, hrty, hnam, hcon, hpri, hwei, hpor⟩ := apply_ttl_fields cfg
    { domain := cfg.domain, rtype := "TXT", name := "a", content := "v",
      ttl := 60, prio := none, weight := none, port := none }
  set ps := apply_ttl_option cfg
    { domain := cfg.domain, rtype := "TXT", name := "a", content := "v",
      ttl := 60, prio := none, weight := none, port := none } with hps
  have httl : ps.ttl = effective_ttl cfg := apply_ttl_ttl cfg _ rfl
  refine ⟨ps, ?_, httl, ?_⟩
  · simp [create_record, hntxt, api_call, htok, hps]
  have hproc : processRecord cfg.domain
      { id := newId, rtype := ps.rtype, name := ps.name, ttl := ps.ttl,
        content := ps.content, prio := ps.prio, weight := ps.weight,
        port := ps.port }
      = .ok { id := newId, rtype := "TXT", name := full_name cfg.domain "a",
              ttl := ps.ttl, content := "v",
              priority := none, weight := none, port := none } := by
    rw [hrty, hnam, hcon, hpri, hwei, hpor]
    have hne : ¬ (pyLower "TXT" = "srv") := by decide
    simp [processRecord, hne]
  have hmap : mapE (processRecord cfg.domain) (remote_add zone newId ps)
      = .ok (all ++ [{ id := newId, rtype := "TXT",
                       name := full_name cfg.domain "a", ttl := ps.ttl,
                       content := "v", priority := none, weight := none,
                       port := none }]) := by
    apply mapE_append _ _ _ _ _ hall
    simp [mapE, hproc]
  refine ⟨{ id := newId, rtype := "TXT", name := full_name cfg.domain "a",
            ttl := ps.ttl, content := "v", priority := none, weight := none,
            port := none }, ?_, rfl, rfl, httl⟩
  rw [list_records_eq cfg (remote_add zone newId ps) (some "TXT") (some "a")
      none none none none tok _ htok hmap]
  rw [filterE_eq_filter _ (matchesTotal cfg.domain (some "TXT") (some "a")
      none none none none) _
      (fun x _ => matchesFilter_eq_total cfg.domain (some "TXT") (some "a")
        none none none none x (Or.inl ⟨rfl, rfl, rfl⟩))]
  rw [List.filter_append]
  have hq : matchesTotal cfg.domain (some "TXT") (some "a") none none none none
      { id := newId, rtype := "TXT", name := full_name cfg.domain "a",
        ttl := ps.ttl, content := "v", priority := none, weight := none,
        port := none } = true := by
    simp [matchesTotal, Option.all]
  simp [hq]

/-- Witness for C7: the round trip over an empty zone with no TTL option. -/
theorem create_txt_roundtrip_witness :
    ∃ ps, create_record cfgW "TXT" "a" "v" none none none
        = (.ok ps, [ApiCall.addRecord ps])
      ∧ ps.ttl = effective_ttl cfgW
      ∧ ∃ nr, (list_records cfgW (remote_add [] 1 ps) (some "TXT") (some "a")
            none none none none).1
          = .ok (([] : List ProcessedRecord).filter
              (matchesTotal cfgW.domain (some "TXT") (some "a") none none none none)
              ++ [nr])
        ∧ nr.rtype = "TXT" ∧ nr.content = "v" ∧ nr.ttl = effective_ttl cfgW :=
  create_txt_roundtrip cfgW [] 1 [] "tok" rfl rfl

/-- Counterexample for C7 as frozen: with a configured TTL option of `0`,
the created and listed record carries ttl 60, not the configured override. -/
theorem create_ttl_zero_option_cex :
    cfg0.ttl_option = some 0
    ∧ create_record cfg0 "TXT" "a" "v" none none none
        = (.ok psZ, [ApiCall.addRecord psZ])
    ∧ (list_records cfg0 (remote_add [] 1 psZ) (some "TXT") (some "a")
          none none none none).1
        = .ok [{ id := 1, rtype := "TXT", name := "a.example.com", ttl := 60,
                 content := "v", priority := none, weight := none, port := none }]
    ∧ (60 : Int) ≠ 0 :=
  ⟨rfl, by decide, by decide, by decide⟩

/-- Claim C1 (code-bug evidence): at the failing input — no explicit
identifier, a (type, name, content) filter matching zero records —
`delete_record` raises the resolver's "Unambiguous record could not be
found." error instead of succeeding with `True` as both the spec and the
function's own comment ("If record does not exist, do nothing.") require;
the only remote call issued is the `list-records` read. -/
theorem delete_record_zero_match_raises :
    delete_record cfgW [] none (some "A") (some "x") (some "y")
      = (.error (.exn "Unambiguous record could not be found."), [ApiCall.listRecords]) := by
  decide

end Njalla
